import Mathlib

/-!
Verification development for the fraud-detection durable orchestration of this
repository.  The definitions below are a shallow embedding of
agentic_ai/workflow/fraud_detection_durable/fraud_analysis_workflow.py and
agentic_ai/workflow/fraud_detection_durable/worker.py: Python floats are
modelled as rationals, Python dicts carrying fixed keys as structures, raised
exceptions as Except.error, and the durable orchestration generator as a pure
function of its recorded activity results and of the outcome of its single
decision/timer race.  UI-only progress maps (step_details, custom status
snapshots) and the two-decimal score formatting inside log/detail strings are
elided: no verified property depends on them.
-/

namespace FraudDetection

/-! ### Python string primitives

The Python string operations used by the source (str.split, str.strip,
str.lower, float()) are modelled on explicit character lists by structural
recursion, so that every definition evaluates inside the kernel. -/

/-- Python s.split(sep) for a non-empty separator, on character lists.  The
Nat argument is recursion fuel; it is always called with the length of the
list, which suffices because every step consumes at least one character. -/
def split_chars_fuel (sep : List Char) : Nat → List Char → List (List Char)
  | _, [] => [[]]
  | 0, s => [s]
  | fuel + 1, c :: cs =>
    if sep.isPrefixOf (c :: cs) then
      [] :: split_chars_fuel sep fuel ((c :: cs).drop sep.length)
    else
      match split_chars_fuel sep fuel cs with
      | [] => [[c]]
      | h :: t => (c :: h) :: t

/-- Python s.split(sep) on strings (result kept as character lists). -/
def python_split (s sep : String) : List (List Char) :=
  split_chars_fuel sep.data s.data.length s.data

/-- The whitespace characters stripped by Python str.strip(). -/
def python_space (c : Char) : Bool :=
  c == ' ' || c == '\t' || c == '\n' || c == '\r' || c == '\x0b' || c == '\x0c'

/-- Python s.strip() on character lists. -/
def python_strip (cs : List Char) : List Char :=
  ((cs.dropWhile python_space).reverse.dropWhile python_space).reverse

/-- ASCII model of Python str.lower() on one character; the severity strings
this is applied to are ASCII. -/
def python_lower_char (c : Char) : Char :=
  if 65 ≤ c.toNat && c.toNat ≤ 90 then Char.ofNat (c.toNat + 32) else c

/-- ASCII model of Python s.lower(). -/
def python_lower (s : String) : String :=
  String.mk (s.data.map python_lower_char)

/-- Value of a list of decimal digit characters, most significant first. -/
def decimal_digits_nat (cs : List Char) : Nat :=
  cs.foldl (fun acc c => acc * 10 + (c.toNat - 48)) 0

/-- Unsigned part of the modelled float() grammar: digits with at most one
decimal point, at least one digit overall. -/
def python_float_digits (cs : List Char) : Option ℚ :=
  let intPart := cs.takeWhile Char.isDigit
  let rest := cs.dropWhile Char.isDigit
  match rest with
  | [] =>
    if intPart.isEmpty then none
    else some (decimal_digits_nat intPart : ℚ)
  | dot :: fracPart =>
    if dot == '.' && fracPart.all Char.isDigit && !(intPart.isEmpty && fracPart.isEmpty) then
      some ((decimal_digits_nat intPart : ℚ) +
        (decimal_digits_nat fracPart : ℚ) / (10 ^ fracPart.length : ℚ))
    else none

/-- Modelled subset of Python float(): an optional sign followed by a plain
decimal numeral.  Exponent, infinity/nan and underscore forms of float() are
not modelled; on those this model answers none where Python would succeed,
which only narrows the set of concrete witnesses used below. -/
def python_float_chars : List Char → Option ℚ
  | [] => none
  | c :: cs =>
    if c = '+' then python_float_digits cs
    else if c = '-' then (python_float_digits cs).map (fun q => -q)
    else python_float_digits (c :: cs)

/-- The characters of the "RISK_SCORE:" marker the specialists search for. -/
def RISK_SCORE_TAG : List Char := "RISK_SCORE:".data

/-- The specialist score extraction (fraud_analysis_workflow.py lines
239-243, identical in all three executors): if the response text contains
"RISK_SCORE:", take the first line containing it, take the text after the
first "RISK_SCORE:" of that line, strip it and parse it with float(); any
failure (substring absent, IndexError, ValueError) yields none and the caller
falls back to its severity table. -/
def parse_risk_score (responseText : String) : Option ℚ :=
  let chars := responseText.data
  if (split_chars_fuel RISK_SCORE_TAG chars.length chars).length ≤ 1 then
    none
  else
    match (split_chars_fuel ['\n'] chars.length chars).filter
        (fun line => 1 < (split_chars_fuel RISK_SCORE_TAG line.length line).length) with
    | [] => none
    | score_line :: _ =>
      match split_chars_fuel RISK_SCORE_TAG score_line.length score_line with
      | _ :: afterTag :: _ => python_float_chars (python_strip afterTag)
      | _ => none

/-! ### Severity fallback tables (one per specialist) -/

/-- severity_scores dict of UsagePatternExecutor.handle_alert, including the
dict.get default 0.5. -/
def usage_severity_scores (s : String) : ℚ :=
  if s = "low" then 0.3
  else if s = "medium" then 0.5
  else if s = "high" then 0.7
  else if s = "critical" then 0.9
  else 0.5

/-- severity_scores dict of LocationAnalysisExecutor.handle_alert, including
the dict.get default 0.6. -/
def location_severity_scores (s : String) : ℚ :=
  if s = "low" then 0.3
  else if s = "medium" then 0.5
  else if s = "high" then 0.8
  else if s = "critical" then 0.95
  else 0.6

/-- severity_scores dict of BillingChargeExecutor.handle_alert, including the
dict.get default 0.4. -/
def billing_severity_scores (s : String) : ℚ :=
  if s = "low" then 0.2
  else if s = "medium" then 0.4
  else if s = "high" then 0.6
  else if s = "critical" then 0.85
  else 0.4

/-! ### Alerts and specialist results -/

/-- SuspiciousActivityAlert (fraud_analysis_workflow.py). -/
structure SuspiciousActivityAlert where
  alert_id : String
  customer_id : Int
  alert_type : String
  description : String := ""
  timestamp : String := ""
  severity : String := "medium"
deriving DecidableEq

/-- Common payload of the three specialist result models
(UsageAnalysisResult / LocationAnalysisResult / BillingAnalysisResult).  The
kind-specific empty list fields (data_points, locations, charges) and the
tool-call log are UI/audit-only and elided. -/
structure SpecialistPayload where
  alert_id : String
  risk_score : ℚ
  findings : String
deriving DecidableEq

/-- The risk score computed by UsagePatternExecutor.handle_alert for a given
alert severity and LLM response text. -/
def usage_alert_risk_score (severity responseText : String) : ℚ :=
  match parse_risk_score responseText with
  | some v => v
  | none => usage_severity_scores (python_lower severity)

/-- The risk score computed by LocationAnalysisExecutor.handle_alert. -/
def location_alert_risk_score (severity responseText : String) : ℚ :=
  match parse_risk_score responseText with
  | some v => v
  | none => location_severity_scores (python_lower severity)

/-- The risk score computed by BillingChargeExecutor.handle_alert. -/
def billing_alert_risk_score (severity responseText : String) : ℚ :=
  match parse_risk_score responseText with
  | some v => v
  | none => billing_severity_scores (python_lower severity)

/-- UsagePatternExecutor.handle_alert result as a function of the alert and
of the LLM response text it received. -/
def usage_handle_alert (alert : SuspiciousActivityAlert) (responseText : String) :
    SpecialistPayload :=
  { alert_id := alert.alert_id
    risk_score := usage_alert_risk_score alert.severity responseText
    findings := if responseText = "" then "Analysis completed" else responseText }

/-- LocationAnalysisExecutor.handle_alert result. -/
def location_handle_alert (alert : SuspiciousActivityAlert) (responseText : String) :
    SpecialistPayload :=
  { alert_id := alert.alert_id
    risk_score := location_alert_risk_score alert.severity responseText
    findings := if responseText = "" then "Analysis completed" else responseText }

/-- BillingChargeExecutor.handle_alert result. -/
def billing_handle_alert (alert : SuspiciousActivityAlert) (responseText : String) :
    SpecialistPayload :=
  { alert_id := alert.alert_id
    risk_score := billing_alert_risk_score alert.severity responseText
    findings := if responseText = "" then "Analysis completed" else responseText }

/-- The union type AnalysisResult of fraud_analysis_workflow.py; the
constructor names are the Python class names. -/
inductive AnalysisResult where
  | UsageAnalysisResult (r : SpecialistPayload)
  | LocationAnalysisResult (r : SpecialistPayload)
  | BillingAnalysisResult (r : SpecialistPayload)
deriving DecidableEq

/-- type(r).__name__ for an AnalysisResult. -/
def typeName : AnalysisResult → String
  | .UsageAnalysisResult _ => "UsageAnalysisResult"
  | .LocationAnalysisResult _ => "LocationAnalysisResult"
  | .BillingAnalysisResult _ => "BillingAnalysisResult"

def usagePart : AnalysisResult → Option SpecialistPayload
  | .UsageAnalysisResult r => some r
  | _ => none

def locationPart : AnalysisResult → Option SpecialistPayload
  | .LocationAnalysisResult r => some r
  | _ => none

def billingPart : AnalysisResult → Option SpecialistPayload
  | .BillingAnalysisResult r => some r
  | _ => none

/-! ### Risk aggregator (FraudRiskAggregatorExecutor.handle_results) -/

/-- Python ", ".join for a list of strings. -/
def joinComma : List String → String
  | [] => ""
  | [s] => s
  | s :: t :: rest => s ++ ", " ++ joinComma (t :: rest)

/-- repr of a Python list of strings: bracketed, comma separated, each element
in single quotes. -/
def pyReprStrList (names : List String) : String :=
  "[" ++ joinComma (names.map (fun n => "\x27" ++ n ++ "\x27")) ++ "]"

/-- The ValueError message raised by handle_results when the three distinct
result types are not all present (fraud_analysis_workflow.py line 443). -/
def aggregation_error_message (results : List AnalysisResult) : String :=
  "Expected 3 different result types, got: " ++ pyReprStrList (results.map typeName)

/-- The separation loop of handle_results (lines 434-440): each received
result overwrites the slot of its own kind, so the last occurrence of a kind
wins. -/
def collectResults :
    List AnalysisResult →
    Option SpecialistPayload × Option SpecialistPayload × Option SpecialistPayload →
    Option SpecialistPayload × Option SpecialistPayload × Option SpecialistPayload
  | [], acc => acc
  | r :: rest, (usage, location, billing) =>
    collectResults rest
      (match r with
        | .UsageAnalysisResult p => (some p, location, billing)
        | .LocationAnalysisResult p => (usage, some p, billing)
        | .BillingAnalysisResult p => (usage, location, some p))

/-- First-some choice on options (used to characterise the overwrite loop). -/
def orO {α : Type} : Option α → Option α → Option α
  | some x, _ => some x
  | none, b => b

/-- The payload of the last result of a given kind in the list, if any. -/
def lastOfKind (f : AnalysisResult → Option SpecialistPayload) :
    List AnalysisResult → Option SpecialistPayload
  | [] => none
  | r :: rest => orO (lastOfKind f rest) (f r)

/-- Risk-level classification of handle_results (lines 484-491). -/
def classify_risk_level (overall_score : ℚ) : String :=
  if overall_score ≥ 0.8 then "critical"
  else if overall_score ≥ 0.6 then "high"
  else if overall_score ≥ 0.4 then "medium"
  else "low"

/-- Recommended-action rule of handle_results (lines 494-497). -/
def recommend_action (overall_score : ℚ) : String :=
  if overall_score ≥ 0.6 then "lock_account"
  else "clear"

/-- FraudRiskAssessment (fraud_analysis_workflow.py); the UI-only
step_details map is elided. -/
structure FraudRiskAssessment where
  alert_id : String
  customer_id : Int
  overall_risk_score : ℚ
  risk_level : String
  recommended_action : String
  reasoning : String
  usage_findings : String
  location_findings : String
  billing_findings : String
deriving DecidableEq

/-- Assessment built by handle_results from the three separated specialist
payloads (lines 481-550); llmText is the advisory synthesis text returned by
the LLM call of the aggregator (response.text). -/
def buildAssessment (usage location billing : SpecialistPayload) (llmText : String) :
    FraudRiskAssessment :=
  let overall_score :=
    usage.risk_score * 0.3 + location.risk_score * 0.4 + billing.risk_score * 0.3
  { alert_id := usage.alert_id
    customer_id := 0
    overall_risk_score := overall_score
    risk_level := classify_risk_level overall_score
    recommended_action := recommend_action overall_score
    reasoning := if llmText = "" then "Based on aggregated analysis" else llmText
    usage_findings := usage.findings
    location_findings := location.findings
    billing_findings := billing.findings }

/-- FraudRiskAggregatorExecutor.handle_results: separate the received results
by type (last of a kind wins), raise ValueError unless all three kinds are
present, otherwise build the weighted assessment. -/
def handle_results (results : List AnalysisResult) (llmText : String) :
    Except String FraudRiskAssessment :=
  match collectResults results (none, none, none) with
  | (some usage, some location, some billing) =>
    Except.ok (buildAssessment usage location billing llmText)
  | _ => Except.error (aggregation_error_message results)

/-! ### Tool allow-lists (specialist executor constructors) -/

/-- An MCP tool function as seen by the executors (only its name matters for
the allow-list filter). -/
structure MCPFunction where
  name : String
deriving DecidableEq

/-- allowed_tools of UsagePatternExecutor (line 197). -/
def usage_allowed_tools : List String :=
  ["get_customer_detail", "get_subscription_detail", "get_data_usage", "search_knowledge_base"]

/-- allowed_tools of LocationAnalysisExecutor (line 270). -/
def location_allowed_tools : List String :=
  ["get_customer_detail", "get_security_logs", "search_knowledge_base"]

/-- allowed_tools of BillingChargeExecutor (lines 342-343). -/
def billing_allowed_tools : List String :=
  ["get_customer_detail", "get_billing_summary", "get_subscription_detail",
   "get_customer_orders", "search_knowledge_base"]

/-- The list comprehension filtering mcp_tool.functions by the allow-list,
identical in the three executor constructors. -/
def filter_allowed_functions (allowed : List String) (functions : List MCPFunction) :
    List MCPFunction :=
  functions.filter (fun f => allowed.contains f.name)

/-! ### Outer durable orchestration (worker.py) -/

/-- FraudDetectionInput (worker.py); approval_timeout_hours is kept as an
exact rational number of hours. -/
structure FraudDetectionInput where
  alert_id : String
  customer_id : Int
  alert_type : String
  description : String := ""
  timestamp : String := ""
  severity : String := "medium"
  approval_timeout_hours : ℚ := 72
  max_review_attempts : Int := 3
deriving DecidableEq

/-- AnalystDecision (worker.py), with the pydantic field defaults. -/
structure AnalystDecision where
  alert_id : String
  approved_action : String
  analyst_notes : String := ""
  analyst_id : String := "analyst"
deriving DecidableEq

/-- ActionResult (worker.py). -/
structure ActionResult where
  alert_id : String
  action_taken : String
  success : Bool
  details : String
deriving DecidableEq

/-- execute_fraud_action activity (worker.py lines 215-249). -/
def execute_fraud_action (decision : AnalystDecision) : ActionResult :=
  { alert_id := decision.alert_id
    action_taken := decision.approved_action
    success := true
    details := "Action \x27" ++ decision.approved_action ++ "\x27 executed successfully" }

/-- auto_clear_alert activity (worker.py lines 252-266); the two-decimal
risk-score rendering inside the details string is elided. -/
def auto_clear_alert (assessment : FraudRiskAssessment) : ActionResult :=
  { alert_id := assessment.alert_id
    action_taken := "auto_clear"
    success := true
    details := "Alert auto-cleared due to low risk score" }

/-- escalate_timeout activity (worker.py lines 269-284). -/
def escalate_timeout (assessment : FraudRiskAssessment) : ActionResult :=
  { alert_id := assessment.alert_id
    action_taken := "escalate_timeout"
    success := true
    details := "Escalated to fraud manager due to review timeout" }

/-- notify_analyst activity return value (worker.py lines 194-212). -/
def notify_analyst (assessment : FraudRiskAssessment) : String :=
  "Analyst notified for alert " ++ assessment.alert_id

/-- send_notification activity return value (worker.py lines 287-298). -/
def send_notification (result : ActionResult) : String :=
  "Notification sent for alert " ++ result.alert_id ++ ", action: " ++ result.action_taken

/-- ANALYST_APPROVAL_EVENT constant (worker.py line 71). -/
def ANALYST_APPROVAL_EVENT : String := "AnalystDecision"

/-- The external-event payload delivered to the waiting orchestration: either
a JSON object carrying (some of) the AnalystDecision fields, or a bare
string. -/
inductive DecisionEventPayload where
  | dict (alert_id : Option String) (approved_action : Option String)
      (analyst_notes : Option String) (analyst_id : Option String)
  | str (s : String)
deriving DecidableEq

/-- Outcome of the decision/timer race (which awaitable when_any returns). -/
inductive RaceOutcome where
  | analystEvent (payload : DecisionEventPayload)
  | timerFired
deriving DecidableEq

/-- AnalystDecision.model_validate on a dict payload: the two required fields
must be present, the others take their declared defaults. -/
def validate_analyst_decision (alert_id approved_action analyst_notes analyst_id :
    Option String) : Except String AnalystDecision :=
  match alert_id, approved_action with
  | some aid, some act =>
    Except.ok
      { alert_id := aid
        approved_action := act
        analyst_notes := analyst_notes.getD ""
        analyst_id := analyst_id.getD "analyst" }
  | _, _ => Except.error "Invalid analyst decision payload"

/-- Input passed to an activity call of the orchestration. -/
inductive ActivityInput where
  | alertInput (alert : SuspiciousActivityAlert)
  | assessmentInput (assessment : FraudRiskAssessment)
  | decisionInput (decision : AnalystDecision)
  | actionInput (result : ActionResult)
deriving DecidableEq

/-- A durable step taken by the orchestration body (activity call, external
event subscription, timer creation). -/
inductive OrchStep where
  | callActivity (name : String) (input : ActivityInput)
  | waitForExternalEvent (eventName : String)
  | createTimer (deadline : ℚ)
deriving DecidableEq

/-- The dict returned by a completed fraud_detection_orchestration run
(worker.py lines 524-531); the UI-only step_details map is elided. -/
structure OrchestrationResult where
  alert_id : String
  status : String
  risk_score : ℚ
  action_taken : String
  success : Bool
deriving DecidableEq

/-- alert_dict built by the orchestration for the run_fraud_analysis activity
(worker.py lines 353-360). -/
def alert_dict_of (payload : FraudDetectionInput) : SuspiciousActivityAlert :=
  { alert_id := payload.alert_id
    customer_id := payload.customer_id
    alert_type := payload.alert_type
    description := payload.description
    timestamp := payload.timestamp
    severity := payload.severity }

/-- fraud_detection_orchestration (worker.py lines 306-531) as a pure
function of its recorded history: now is context.current_utc_datetime in
hours, assessment is the recorded result of the run_fraud_analysis activity,
and race is the recorded winner of the when_any over the analyst-decision
event and the timeout timer (only consulted on the high-risk branch).  The
returned list is the ordered trace of durable steps the body schedules;
custom-status snapshots are elided. -/
def fraud_detection_orchestration (now : ℚ) (payload : FraudDetectionInput)
    (assessment : FraudRiskAssessment) (race : RaceOutcome) :
    Except String (List OrchStep × OrchestrationResult) :=
  let risk_score := assessment.overall_risk_score
  let analysisStep := OrchStep.callActivity "run_fraud_analysis"
    (.alertInput (alert_dict_of payload))
  if risk_score ≥ 0.6 then
    let preSteps := [analysisStep,
      OrchStep.callActivity "notify_analyst" (.assessmentInput assessment),
      OrchStep.waitForExternalEvent ANALYST_APPROVAL_EVENT,
      OrchStep.createTimer (now + payload.approval_timeout_hours)]
    match race with
    | .analystEvent eventPayload =>
      let decisionE : Except String AnalystDecision :=
        match eventPayload with
        | .dict aid act notes anid => validate_analyst_decision aid act notes anid
        | .str s =>
          Except.ok
            { alert_id := payload.alert_id
              approved_action := s
              analyst_notes := ""
              analyst_id := "unknown" }
      match decisionE with
      | .error e => Except.error e
      | .ok decision =>
        let result := execute_fraud_action decision
        Except.ok
          (preSteps ++
            [OrchStep.callActivity "execute_fraud_action" (.decisionInput decision),
             OrchStep.callActivity "send_notification" (.actionInput result)],
           { alert_id := payload.alert_id
             status := "completed"
             risk_score := risk_score
             action_taken := result.action_taken
             success := result.success })
    | .timerFired =>
      let result := escalate_timeout assessment
      Except.ok
        (preSteps ++
          [OrchStep.callActivity "escalate_timeout" (.assessmentInput assessment),
           OrchStep.callActivity "send_notification" (.actionInput result)],
         { alert_id := payload.alert_id
           status := "completed"
           risk_score := risk_score
           action_taken := result.action_taken
           success := result.success })
  else
    let result := auto_clear_alert assessment
    Except.ok
      ([analysisStep,
        OrchStep.callActivity "auto_clear_alert" (.assessmentInput assessment),
        OrchStep.callActivity "send_notification" (.actionInput result)],
       { alert_id := payload.alert_id
         status := "completed"
         risk_score := risk_score
         action_taken := result.action_taken
         success := result.success })

/-! ### Helper lemmas: the separation loop keeps the last result of a kind -/

theorem orO_some {α : Type} (x : α) (b : Option α) : orO (some x) b = some x := rfl

theorem orO_none_left {α : Type} (b : Option α) : orO none b = b := rfl

theorem orO_none_right {α : Type} (a : Option α) : orO a none = a := by
  cases a <;> rfl

theorem orO_assoc {α : Type} (a b c : Option α) :
    orO (orO a b) c = orO a (orO b c) := by
  cases a <;> rfl

/-- The overwrite loop of handle_results computes, for each kind, the payload
of the last received result of that kind (falling back to the accumulator). -/
theorem collectResults_eq (rs : List AnalysisResult)
    (u l b : Option SpecialistPayload) :
    collectResults rs (u, l, b) =
      (orO (lastOfKind usagePart rs) u, orO (lastOfKind locationPart rs) l,
       orO (lastOfKind billingPart rs) b) := by
  induction rs generalizing u l b with
  | nil => rfl
  | cons r rest ih =>
    cases r with
    | UsageAnalysisResult p =>
      show collectResults rest (some p, l, b) = _
      rw [ih]
      simp only [lastOfKind, usagePart, locationPart, billingPart, orO_assoc,
        orO_none_right, orO_some]
    | LocationAnalysisResult p =>
      show collectResults rest (u, some p, b) = _
      rw [ih]
      simp only [lastOfKind, usagePart, locationPart, billingPart, orO_assoc,
        orO_none_right, orO_some]
    | BillingAnalysisResult p =>
      show collectResults rest (u, l, some p) = _
      rw [ih]
      simp only [lastOfKind, usagePart, locationPart, billingPart, orO_assoc,
        orO_none_right, orO_some]

/-- Success case of handle_results, characterised by the last result of each
kind. -/
theorem handle_results_of_all (rs : List AnalysisResult) (llmText : String)
    (pu pl pb : SpecialistPayload)
    (hu : lastOfKind usagePart rs = some pu)
    (hl : lastOfKind locationPart rs = some pl)
    (hb : lastOfKind billingPart rs = some pb) :
    handle_results rs llmText = Except.ok (buildAssessment pu pl pb llmText) := by
  unfold handle_results
  rw [collectResults_eq, hu, hl, hb]
  rfl

/-- Failure case of handle_results: some kind never arrived. -/
theorem handle_results_of_missing (rs : List AnalysisResult) (llmText : String)
    (h : lastOfKind usagePart rs = none ∨ lastOfKind locationPart rs = none ∨
      lastOfKind billingPart rs = none) :
    handle_results rs llmText = Except.error (aggregation_error_message rs) := by
  unfold handle_results
  rw [collectResults_eq]
  rcases hu : lastOfKind usagePart rs with _ | pu
  · rcases lastOfKind locationPart rs with _ | pl <;>
      rcases lastOfKind billingPart rs with _ | pb <;> rfl
  · rcases hl : lastOfKind locationPart rs with _ | pl
    · rcases lastOfKind billingPart rs with _ | pb <;> rfl
    · rcases hb : lastOfKind billingPart rs with _ | pb
      · rfl
      · rcases h with h | h | h
        · rw [hu] at h; cases h
        · rw [hl] at h; cases h
        · rw [hb] at h; cases h

/-- Every successful handle_results output has its recommended_action and
risk_level computed from its own overall_risk_score by the two threshold
rules. -/
theorem handle_results_ok_fields (rs : List AnalysisResult) (llmText : String)
    (a : FraudRiskAssessment) (h : handle_results rs llmText = Except.ok a) :
    a.recommended_action = recommend_action a.overall_risk_score ∧
    a.risk_level = classify_risk_level a.overall_risk_score := by
  unfold handle_results at h
  rcases hcol : collectResults rs (none, none, none) with ⟨u, l, b⟩
  rw [hcol] at h
  rcases u with _ | pu
  · exact Except.noConfusion h
  rcases l with _ | pl
  · exact Except.noConfusion h
  rcases b with _ | pb
  · exact Except.noConfusion h
  injection h with h2
  subst h2
  exact ⟨rfl, rfl⟩

/-! ### Helper lemmas: the aggregation error message mentions each received
result type name -/

/-- Bool test for a contiguous occurrence of needle inside a character
list. -/
def containsSeq (needle : List Char) : List Char → Bool
  | [] => needle.isEmpty
  | c :: cs => needle.isPrefixOf (c :: cs) || containsSeq needle cs

theorem isPrefixOf_self_append (l t : List Char) : l.isPrefixOf (l ++ t) = true := by
  induction l with
  | nil => simp [List.isPrefixOf]
  | cons c cs ih => simp [List.isPrefixOf, ih]

/-- If needle occurs contiguously in hay then containsSeq finds it. -/
theorem containsSeq_of_decomp (needle p q hay : List Char)
    (h : p ++ needle ++ q = hay) : containsSeq needle hay = true := by
  induction p generalizing hay with
  | nil =>
    subst h
    cases hn : needle ++ q with
    | nil =>
      rcases List.append_eq_nil.mp hn with ⟨h1, h2⟩
      subst h1
      subst h2
      rfl
    | cons c cs =>
      simp only [List.nil_append, hn, containsSeq]
      rw [← hn, isPrefixOf_self_append]
      simp
  | cons c p' ih =>
    subst h
    have h2 := ih (p' ++ needle ++ q) rfl
    simp only [List.cons_append, containsSeq]
    simp only [List.append_assoc] at h2
    simp [h2]

/-- Each member of a list appears contiguously in its comma join. -/
theorem joinComma_mem_decomp (names : List String) (n : String) (h : n ∈ names) :
    ∃ p q, p ++ n.data ++ q = (joinComma names).data := by
  induction names with
  | nil => cases h
  | cons x rest ih =>
    cases rest with
    | nil =>
      rcases List.mem_singleton.mp h with rfl
      exact ⟨[], [], by simp [joinComma]⟩
    | cons y t =>
      rcases List.mem_cons.mp h with rfl | hmem
      · refine ⟨[], (", " ++ joinComma (y :: t)).data, ?_⟩
        simp only [joinComma, String.data_append]
        simp [List.append_assoc]
      · rcases ih hmem with ⟨p, q, hpq⟩
        refine ⟨(x ++ ", ").data ++ p, q, ?_⟩
        simp only [joinComma, String.data_append]
        rw [← hpq]
        simp [List.append_assoc]

/-- The quoted name of each received result appears contiguously in the
handle_results error message. -/
theorem aggregation_error_message_mentions (rs : List AnalysisResult)
    (r : AnalysisResult) (h : r ∈ rs) :
    ∃ p q, p ++ (typeName r).data ++ q = (aggregation_error_message rs).data := by
  have hq : ("\x27" ++ typeName r ++ "\x27") ∈
      (rs.map typeName).map (fun n => "\x27" ++ n ++ "\x27") :=
    List.mem_map_of_mem _ (List.mem_map_of_mem _ h)
  rcases joinComma_mem_decomp _ _ hq with ⟨p, q, hpq⟩
  refine ⟨("Expected 3 different result types, got: [").data ++ (p ++ ("\x27").data),
    (("\x27").data ++ q) ++ ("]").data, ?_⟩
  unfold aggregation_error_message pyReprStrList
  rw [String.data_append, String.data_append, String.data_append]
  rw [← hpq, String.data_append, String.data_append]
  simp [List.append_assoc]

/-! ### Claims about the Risk Aggregator -/

/-- Claim C2: for every triple of specialist risk scores (usage, location,
billing) each in [0,1] supplied to the Risk Aggregator (as the last result of
each kind), the produced overall_risk_score equals exactly
0.3*usage + 0.4*location + 0.3*billing. -/
theorem claim_C2_weighted_overall_score (rs : List AnalysisResult) (llmText : String)
    (pu pl pb : SpecialistPayload)
    (hu : lastOfKind usagePart rs = some pu)
    (hl : lastOfKind locationPart rs = some pl)
    (hb : lastOfKind billingPart rs = some pb)
    (hu0 : 0 ≤ pu.risk_score) (hu1 : pu.risk_score ≤ 1)
    (hl0 : 0 ≤ pl.risk_score) (hl1 : pl.risk_score ≤ 1)
    (hb0 : 0 ≤ pb.risk_score) (hb1 : pb.risk_score ≤ 1) :
    ∃ a, handle_results rs llmText = Except.ok a ∧
      a.overall_risk_score =
        0.3 * pu.risk_score + 0.4 * pl.risk_score + 0.3 * pb.risk_score := by
  refine ⟨buildAssessment pu pl pb llmText,
    handle_results_of_all rs llmText pu pl pb hu hl hb, ?_⟩
  show pu.risk_score * 0.3 + pl.risk_score * 0.4 + pb.risk_score * 0.3 = _
  ring

/-- Witness for C2 at three concrete scores 1/2. -/
theorem claim_C2_witness :
    ∃ a,
      handle_results
          [AnalysisResult.UsageAnalysisResult ⟨"A", 1/2, "u"⟩,
           AnalysisResult.LocationAnalysisResult ⟨"A", 1/2, "l"⟩,
           AnalysisResult.BillingAnalysisResult ⟨"A", 1/2, "b"⟩] "" = Except.ok a ∧
      a.overall_risk_score =
        0.3 * (SpecialistPayload.mk "A" (1/2) "u").risk_score +
        0.4 * (SpecialistPayload.mk "A" (1/2) "l").risk_score +
        0.3 * (SpecialistPayload.mk "A" (1/2) "b").risk_score :=
  claim_C2_weighted_overall_score _ "" ⟨"A", 1/2, "u"⟩ ⟨"A", 1/2, "l"⟩ ⟨"A", 1/2, "b"⟩
    rfl rfl rfl
    (show (0:ℚ) ≤ 1/2 by norm_num) (show (1:ℚ)/2 ≤ 1 by norm_num)
    (show (0:ℚ) ≤ 1/2 by norm_num) (show (1:ℚ)/2 ≤ 1 by norm_num)
    (show (0:ℚ) ≤ 1/2 by norm_num) (show (1:ℚ)/2 ≤ 1 by norm_num)

/-- Claim C3: every Risk Aggregator assessment recommends "lock_account"
exactly when its overall score is at least 0.6 and "clear" otherwise, never
"refund_charges" or "both"; at 0.59 the rule gives "clear" and at 0.60 it
gives "lock_account". -/
theorem claim_C3_recommended_action :
    (∀ (rs : List AnalysisResult) (llmText : String) (a : FraudRiskAssessment),
      handle_results rs llmText = Except.ok a →
      (0.6 ≤ a.overall_risk_score → a.recommended_action = "lock_account") ∧
      (a.overall_risk_score < 0.6 → a.recommended_action = "clear") ∧
      a.recommended_action ≠ "refund_charges" ∧ a.recommended_action ≠ "both") ∧
    recommend_action 0.59 = "clear" ∧ recommend_action 0.6 = "lock_account" := by
  refine ⟨?_, by norm_num [recommend_action], by norm_num [recommend_action]⟩
  intro rs llmText a h
  obtain ⟨hra, _⟩ := handle_results_ok_fields rs llmText a h
  rw [hra]
  unfold recommend_action
  refine ⟨fun hge => if_pos hge, fun hlt => if_neg (not_le.mpr hlt), ?_, ?_⟩
  · split <;> decide
  · split <;> decide

/-- Witness for C3 at a concrete high-risk run (overall score 0.905). -/
theorem claim_C3_witness :
    (buildAssessment ⟨"A", 0.9, "u"⟩ ⟨"A", 0.95, "l"⟩ ⟨"A", 0.85, "b"⟩
        "").recommended_action = "lock_account" := by
  have h := (claim_C3_recommended_action.1
    [AnalysisResult.UsageAnalysisResult ⟨"A", 0.9, "u"⟩,
     AnalysisResult.LocationAnalysisResult ⟨"A", 0.95, "l"⟩,
     AnalysisResult.BillingAnalysisResult ⟨"A", 0.85, "b"⟩] ""
    (buildAssessment ⟨"A", 0.9, "u"⟩ ⟨"A", 0.95, "l"⟩ ⟨"A", 0.85, "b"⟩ "") rfl).1
  exact h (show (0.6:ℚ) ≤ 0.9 * 0.3 + 0.95 * 0.4 + 0.85 * 0.3 by norm_num)

/-- Claim C4: every Risk Aggregator assessment classifies its overall score
as critical when at least 0.8, high when in [0.6, 0.8), medium when in
[0.4, 0.6), and low otherwise; 0.75 is "high" and 0.80 is "critical". -/
theorem claim_C4_risk_level :
    (∀ (rs : List AnalysisResult) (llmText : String) (a : FraudRiskAssessment),
      handle_results rs llmText = Except.ok a →
      (0.8 ≤ a.overall_risk_score → a.risk_level = "critical") ∧
      (0.6 ≤ a.overall_risk_score → a.overall_risk_score < 0.8 → a.risk_level = "high") ∧
      (0.4 ≤ a.overall_risk_score → a.overall_risk_score < 0.6 → a.risk_level = "medium") ∧
      (a.overall_risk_score < 0.4 → a.risk_level = "low")) ∧
    classify_risk_level 0.75 = "high" ∧ classify_risk_level 0.8 = "critical" := by
  refine ⟨?_, by norm_num [classify_risk_level], by norm_num [classify_risk_level]⟩
  intro rs llmText a h
  obtain ⟨_, hrl⟩ := handle_results_ok_fields rs llmText a h
  rw [hrl]
  unfold classify_risk_level
  refine ⟨fun h1 => if_pos h1, fun h1 h2 => ?_, fun h1 h2 => ?_, fun h1 => ?_⟩
  · rw [if_neg (not_le.mpr h2), if_pos h1]
  · rw [if_neg (not_le.mpr (lt_trans h2 (by norm_num))), if_neg (not_le.mpr h2),
      if_pos h1]
  · rw [if_neg (not_le.mpr (lt_trans h1 (by norm_num))),
      if_neg (not_le.mpr (lt_trans h1 (by norm_num))), if_neg (not_le.mpr h1)]

/-- Witness for C4 at a concrete run with overall score 0.9. -/
theorem claim_C4_witness :
    (buildAssessment ⟨"B", 0.9, "u"⟩ ⟨"B", 0.9, "l"⟩ ⟨"B", 0.9, "b"⟩
        "").risk_level = "critical" := by
  have h := (claim_C4_risk_level.1
    [AnalysisResult.UsageAnalysisResult ⟨"B", 0.9, "u"⟩,
     AnalysisResult.LocationAnalysisResult ⟨"B", 0.9, "l"⟩,
     AnalysisResult.BillingAnalysisResult ⟨"B", 0.9, "b"⟩] ""
    (buildAssessment ⟨"B", 0.9, "u"⟩ ⟨"B", 0.9, "l"⟩ ⟨"B", 0.9, "b"⟩ "") rfl).1
  exact h (show (0.8:ℚ) ≤ 0.9 * 0.3 + 0.9 * 0.4 + 0.9 * 0.3 by norm_num)

/-- Claim C6 (amended): when the received results cover fewer than the three
distinct specialist kinds, the aggregator fails with an error (producing no
assessment); the error message lists the type names of the results actually
received, so a duplicated kind appears in it, but the missing kinds are not
named. -/
theorem claim_C6_missing_kind_error (rs : List AnalysisResult) (llmText : String)
    (h : lastOfKind usagePart rs = none ∨ lastOfKind locationPart rs = none ∨
      lastOfKind billingPart rs = none) :
    handle_results rs llmText = Except.error (aggregation_error_message rs) ∧
    ∀ r ∈ rs, ∃ p q, p ++ (typeName r).data ++ q = (aggregation_error_message rs).data :=
  ⟨handle_results_of_missing rs llmText h,
   fun r hr => aggregation_error_message_mentions rs r hr⟩

/-- Counterexample for C6 as stated: on a usage+location input whose billing
result is missing (and which contains no duplicate kind), the error raised by
the aggregator does not name the missing billing kind anywhere in its
message. -/
theorem claim_C6_counterexample :
    handle_results
        [AnalysisResult.UsageAnalysisResult ⟨"FD-100", 0.7, "usage findings"⟩,
         AnalysisResult.LocationAnalysisResult ⟨"FD-100", 0.8, "location findings"⟩] "" =
      Except.error (aggregation_error_message
        [AnalysisResult.UsageAnalysisResult ⟨"FD-100", 0.7, "usage findings"⟩,
         AnalysisResult.LocationAnalysisResult ⟨"FD-100", 0.8, "location findings"⟩]) ∧
    ¬ ∃ p q, p ++ ("BillingAnalysisResult").data ++ q =
        (aggregation_error_message
          [AnalysisResult.UsageAnalysisResult ⟨"FD-100", 0.7, "usage findings"⟩,
           AnalysisResult.LocationAnalysisResult ⟨"FD-100", 0.8, "location findings"⟩]).data := by
  refine ⟨rfl, ?_⟩
  rintro ⟨p, q, hpq⟩
  have h2 := containsSeq_of_decomp ("BillingAnalysisResult").data p q _ hpq
  rw [show containsSeq ("BillingAnalysisResult").data
      (aggregation_error_message
        [AnalysisResult.UsageAnalysisResult ⟨"FD-100", 0.7, "usage findings"⟩,
         AnalysisResult.LocationAnalysisResult ⟨"FD-100", 0.8, "location findings"⟩]).data =
      false from rfl] at h2
  cases h2

/-- Witness for the amended C6 at the example given in the spec (two usage results,
no location or billing). -/
theorem claim_C6_witness :
    lastOfKind locationPart
        [AnalysisResult.UsageAnalysisResult ⟨"FD-101", 0.7, "first"⟩,
         AnalysisResult.UsageAnalysisResult ⟨"FD-101", 0.9, "second"⟩] = none ∧
    (handle_results
        [AnalysisResult.UsageAnalysisResult ⟨"FD-101", 0.7, "first"⟩,
         AnalysisResult.UsageAnalysisResult ⟨"FD-101", 0.9, "second"⟩] "" =
      Except.error (aggregation_error_message
        [AnalysisResult.UsageAnalysisResult ⟨"FD-101", 0.7, "first"⟩,
         AnalysisResult.UsageAnalysisResult ⟨"FD-101", 0.9, "second"⟩]) ∧
    ∀ r ∈ [AnalysisResult.UsageAnalysisResult (SpecialistPayload.mk "FD-101" 0.7 "first"),
           AnalysisResult.UsageAnalysisResult ⟨"FD-101", 0.9, "second"⟩],
      ∃ p q, p ++ (typeName r).data ++ q =
        (aggregation_error_message
          [AnalysisResult.UsageAnalysisResult ⟨"FD-101", 0.7, "first"⟩,
           AnalysisResult.UsageAnalysisResult ⟨"FD-101", 0.9, "second"⟩]).data) :=
  ⟨rfl, claim_C6_missing_kind_error _ "" (Or.inr (Or.inl rfl))⟩

/-- Claim C10: whenever at least one result of each kind is present, the
aggregator succeeds even on lists with duplicate kinds or more than three
elements, and for each kind the last occurrence in the list is the one whose
score and findings enter the assessment. -/
theorem claim_C10_last_occurrence_wins (rs : List AnalysisResult) (llmText : String)
    (pu pl pb : SpecialistPayload)
    (hu : lastOfKind usagePart rs = some pu)
    (hl : lastOfKind locationPart rs = some pl)
    (hb : lastOfKind billingPart rs = some pb) :
    handle_results rs llmText = Except.ok (buildAssessment pu pl pb llmText) ∧
    (buildAssessment pu pl pb llmText).usage_findings = pu.findings ∧
    (buildAssessment pu pl pb llmText).location_findings = pl.findings ∧
    (buildAssessment pu pl pb llmText).billing_findings = pb.findings :=
  ⟨handle_results_of_all rs llmText pu pl pb hu hl hb, rfl, rfl, rfl⟩

/-- Witness for C10 on a four-element list whose first usage result is
superseded by a later one. -/
theorem claim_C10_witness :
    handle_results
        [AnalysisResult.UsageAnalysisResult ⟨"C", 0.1, "early usage"⟩,
         AnalysisResult.UsageAnalysisResult ⟨"C", 0.6, "late usage"⟩,
         AnalysisResult.LocationAnalysisResult ⟨"C", 0.5, "loc"⟩,
         AnalysisResult.BillingAnalysisResult ⟨"C", 0.5, "bill"⟩] "" =
      Except.ok (buildAssessment ⟨"C", 0.6, "late usage"⟩ ⟨"C", 0.5, "loc"⟩
        ⟨"C", 0.5, "bill"⟩ "") ∧
    (buildAssessment ⟨"C", 0.6, "late usage"⟩ ⟨"C", 0.5, "loc"⟩ ⟨"C", 0.5, "bill"⟩
        "").usage_findings = "late usage" ∧
    (buildAssessment ⟨"C", 0.6, "late usage"⟩ ⟨"C", 0.5, "loc"⟩ ⟨"C", 0.5, "bill"⟩
        "").location_findings = "loc" ∧
    (buildAssessment ⟨"C", 0.6, "late usage"⟩ ⟨"C", 0.5, "loc"⟩ ⟨"C", 0.5, "bill"⟩
        "").billing_findings = "bill" :=
  claim_C10_last_occurrence_wins _ "" ⟨"C", 0.6, "late usage"⟩ ⟨"C", 0.5, "loc"⟩
    ⟨"C", 0.5, "bill"⟩ rfl rfl rfl

/-! ### Claims about the specialist analyzers -/

/-- Claim C5: whenever the LLM response text has no parsable RISK_SCORE line,
each specialist returns exactly its per-kind fallback table value for each of
the four severities. -/
theorem claim_C5_severity_fallback_tables (alert : SuspiciousActivityAlert)
    (responseText : String) (h : parse_risk_score responseText = none) :
    (alert.severity = "low" →
      (usage_handle_alert alert responseText).risk_score = 0.3 ∧
      (location_handle_alert alert responseText).risk_score = 0.3 ∧
      (billing_handle_alert alert responseText).risk_score = 0.2) ∧
    (alert.severity = "medium" →
      (usage_handle_alert alert responseText).risk_score = 0.5 ∧
      (location_handle_alert alert responseText).risk_score = 0.5 ∧
      (billing_handle_alert alert responseText).risk_score = 0.4) ∧
    (alert.severity = "high" →
      (usage_handle_alert alert responseText).risk_score = 0.7 ∧
      (location_handle_alert alert responseText).risk_score = 0.8 ∧
      (billing_handle_alert alert responseText).risk_score = 0.6) ∧
    (alert.severity = "critical" →
      (usage_handle_alert alert responseText).risk_score = 0.9 ∧
      (location_handle_alert alert responseText).risk_score = 0.95 ∧
      (billing_handle_alert alert responseText).risk_score = 0.85) := by
  refine ⟨fun hsev => ?_, fun hsev => ?_, fun hsev => ?_, fun hsev => ?_⟩ <;>
    refine ⟨?_, ?_, ?_⟩ <;>
      simp only [usage_handle_alert, location_handle_alert, billing_handle_alert,
        usage_alert_risk_score, location_alert_risk_score, billing_alert_risk_score,
        h, hsev] <;> rfl

/-- Witness for C5 on a response text with no RISK_SCORE line and a low
severity alert. -/
theorem claim_C5_witness :
    parse_risk_score "inconclusive signals only" = none ∧
    ((usage_handle_alert ⟨"FD-7", 1, "spike", "", "", "low"⟩
        "inconclusive signals only").risk_score = 0.3 ∧
     (location_handle_alert ⟨"FD-7", 1, "spike", "", "", "low"⟩
        "inconclusive signals only").risk_score = 0.3 ∧
     (billing_handle_alert ⟨"FD-7", 1, "spike", "", "", "low"⟩
        "inconclusive signals only").risk_score = 0.2) :=
  ⟨rfl,
   (claim_C5_severity_fallback_tables ⟨"FD-7", 1, "spike", "", "", "low"⟩
     "inconclusive signals only" rfl).1 rfl⟩

/-- Claim C9 (amended): every specialist risk score is the parsed RISK_SCORE
value passed through unchanged when that line parses, and lies in [0,1] only
on the fallback path: all severity-table values are in [0,1], but a parsable
out-of-range RISK_SCORE value propagates outside [0,1] unclamped. -/
theorem claim_C9_amended_score_range (alert : SuspiciousActivityAlert)
    (responseText : String) :
    (parse_risk_score responseText = none →
      (0 ≤ (usage_handle_alert alert responseText).risk_score ∧
        (usage_handle_alert alert responseText).risk_score ≤ 1) ∧
      (0 ≤ (location_handle_alert alert responseText).risk_score ∧
        (location_handle_alert alert responseText).risk_score ≤ 1) ∧
      (0 ≤ (billing_handle_alert alert responseText).risk_score ∧
        (billing_handle_alert alert responseText).risk_score ≤ 1)) ∧
    (∀ v, parse_risk_score responseText = some v →
      (usage_handle_alert alert responseText).risk_score = v ∧
      (location_handle_alert alert responseText).risk_score = v ∧
      (billing_handle_alert alert responseText).risk_score = v) := by
  constructor
  · intro h
    refine ⟨?_, ?_, ?_⟩ <;>
      simp only [usage_handle_alert, location_handle_alert, billing_handle_alert,
        usage_alert_risk_score, location_alert_risk_score, billing_alert_risk_score, h]
    · unfold usage_severity_scores
      split_ifs <;> norm_num
    · unfold location_severity_scores
      split_ifs <;> norm_num
    · unfold billing_severity_scores
      split_ifs <;> norm_num
  · intro v h
    refine ⟨?_, ?_, ?_⟩ <;>
      simp only [usage_handle_alert, location_handle_alert, billing_handle_alert,
        usage_alert_risk_score, location_alert_risk_score, billing_alert_risk_score, h]

/-- Witness for the amended C9: fallback path bounds at a concrete
scoreless response. -/
theorem claim_C9_witness :
    parse_risk_score "no verdict" = none ∧
    (0 ≤ (usage_handle_alert ⟨"FD-8", 2, "t", "", "", "medium"⟩ "no verdict").risk_score ∧
      (usage_handle_alert ⟨"FD-8", 2, "t", "", "", "medium"⟩ "no verdict").risk_score ≤ 1) :=
  ⟨rfl,
   ((claim_C9_amended_score_range ⟨"FD-8", 2, "t", "", "", "medium"⟩ "no verdict").1
     rfl).1⟩

/-- Counterexample for C9 as stated: a parsable RISK_SCORE line carrying 5.0
is passed through, so the produced risk_score is 5, outside [0,1]. -/
theorem claim_C9_counterexample :
    (usage_handle_alert ⟨"FD-9", 3, "t", "", "", "low"⟩
        "RISK_SCORE: 5.0").risk_score = 5 ∧
    ¬ ((usage_handle_alert ⟨"FD-9", 3, "t", "", "", "low"⟩
        "RISK_SCORE: 5.0").risk_score ≤ 1) := by
  have hp : parse_risk_score "RISK_SCORE: 5.0" =
      some ((5 : ℚ) + (0 : ℚ) / (10 ^ 1 : ℚ)) := rfl
  have hv : (usage_handle_alert ⟨"FD-9", 3, "t", "", "", "low"⟩
      "RISK_SCORE: 5.0").risk_score = (5 : ℚ) + (0 : ℚ) / (10 ^ 1 : ℚ) := by
    simp only [usage_handle_alert, usage_alert_risk_score, hp]
  rw [hv]
  norm_num

/-! ### Claim about the tool allow-lists -/

/-- Claim C8: the tool set bound to each specialist agent is the filter of
the MCP functions by the fixed allow-list of that specialist, so every function it
contains has its name in the allow-list and out-of-scope calls are impossible
at the binding layer. -/
theorem claim_C8_tool_allow_lists (functions : List MCPFunction) (f : MCPFunction) :
    (f ∈ filter_allowed_functions usage_allowed_tools functions →
      f.name ∈ usage_allowed_tools) ∧
    (f ∈ filter_allowed_functions location_allowed_tools functions →
      f.name ∈ location_allowed_tools) ∧
    (f ∈ filter_allowed_functions billing_allowed_tools functions →
      f.name ∈ billing_allowed_tools) := by
  refine ⟨fun h => ?_, fun h => ?_, fun h => ?_⟩ <;>
    simpa using (List.mem_filter.mp h).2

/-- Witness for C8: a usage-scope function passes the usage filter of a
catalog that also holds an out-of-scope tool. -/
theorem claim_C8_witness :
    MCPFunction.mk "get_data_usage" ∈
      filter_allowed_functions usage_allowed_tools
        [MCPFunction.mk "get_data_usage", MCPFunction.mk "unlock_account"] ∧
    (MCPFunction.mk "get_data_usage").name ∈ usage_allowed_tools :=
  ⟨by decide,
   (claim_C8_tool_allow_lists
     [MCPFunction.mk "get_data_usage", MCPFunction.mk "unlock_account"]
     (MCPFunction.mk "get_data_usage")).1 (by decide)⟩

/-! ### Claims about the outer orchestration -/

/-- Claim C1: a completed orchestration run branches on the assessment
field overall_risk_score at 0.6.  At or above the threshold it notifies the
analyst, then races the "AnalystDecision" external event against a timer at
now + approval_timeout_hours, and when the timer wins the final action_taken
is "escalate_timeout"; below the threshold it auto-clears directly, with no
external-event wait and no timer. -/
theorem claim_C1_risk_branching (now : ℚ) (payload : FraudDetectionInput)
    (assessment : FraudRiskAssessment) :
    (0.6 ≤ assessment.overall_risk_score →
      fraud_detection_orchestration now payload assessment RaceOutcome.timerFired =
        Except.ok
          ([OrchStep.callActivity "run_fraud_analysis"
              (.alertInput (alert_dict_of payload)),
            OrchStep.callActivity "notify_analyst" (.assessmentInput assessment),
            OrchStep.waitForExternalEvent "AnalystDecision",
            OrchStep.createTimer (now + payload.approval_timeout_hours),
            OrchStep.callActivity "escalate_timeout" (.assessmentInput assessment),
            OrchStep.callActivity "send_notification"
              (.actionInput (escalate_timeout assessment))],
           { alert_id := payload.alert_id
             status := "completed"
             risk_score := assessment.overall_risk_score
             action_taken := "escalate_timeout"
             success := true })) ∧
    (assessment.overall_risk_score < 0.6 → ∀ race,
      fraud_detection_orchestration now payload assessment race =
        Except.ok
          ([OrchStep.callActivity "run_fraud_analysis"
              (.alertInput (alert_dict_of payload)),
            OrchStep.callActivity "auto_clear_alert" (.assessmentInput assessment),
            OrchStep.callActivity "send_notification"
              (.actionInput (auto_clear_alert assessment))],
           { alert_id := payload.alert_id
             status := "completed"
             risk_score := assessment.overall_risk_score
             action_taken := "auto_clear"
             success := true }) ∧
      (∀ e, OrchStep.waitForExternalEvent e ∉
        [OrchStep.callActivity "run_fraud_analysis" (.alertInput (alert_dict_of payload)),
         OrchStep.callActivity "auto_clear_alert" (.assessmentInput assessment),
         OrchStep.callActivity "send_notification"
           (.actionInput (auto_clear_alert assessment))]) ∧
      (∀ t, OrchStep.createTimer t ∉
        [OrchStep.callActivity "run_fraud_analysis" (.alertInput (alert_dict_of payload)),
         OrchStep.callActivity "auto_clear_alert" (.assessmentInput assessment),
         OrchStep.callActivity "send_notification"
           (.actionInput (auto_clear_alert assessment))])) := by
  constructor
  · intro h
    simp only [fraud_detection_orchestration]
    rw [if_pos h]
    rfl
  · intro h race
    simp only [fraud_detection_orchestration]
    rw [if_neg (not_le.mpr h)]
    refine ⟨rfl, fun e => ?_, fun t => ?_⟩ <;> simp

/-- Example orchestration input used by witnesses. -/
def sample_payload : FraudDetectionInput :=
  { alert_id := "FD-2025-001"
    customer_id := 101
    alert_type := "multi_country_login"
    description := "logins from two countries"
    timestamp := "2025-01-01T00:00:00"
    severity := "high"
    approval_timeout_hours := 72
    max_review_attempts := 3 }

/-- Example high-risk assessment (overall score 0.9) used by witnesses. -/
def sample_high_assessment : FraudRiskAssessment :=
  { alert_id := "FD-2025-001"
    customer_id := 101
    overall_risk_score := 0.9
    risk_level := "critical"
    recommended_action := "lock_account"
    reasoning := "strong anomaly"
    usage_findings := "u"
    location_findings := "l"
    billing_findings := "b" }

/-- Example low-risk assessment (overall score 0.2) used by witnesses. -/
def sample_low_assessment : FraudRiskAssessment :=
  { alert_id := "FD-2025-001"
    customer_id := 101
    overall_risk_score := 0.2
    risk_level := "low"
    recommended_action := "clear"
    reasoning := "benign"
    usage_findings := "u"
    location_findings := "l"
    billing_findings := "b" }

/-- Witness for C1 on both branches at concrete assessments. -/
theorem claim_C1_witness :
    (0.6 ≤ sample_high_assessment.overall_risk_score ∧
      (fraud_detection_orchestration 0 sample_payload sample_high_assessment
        RaceOutcome.timerFired).toOption.map (fun r => r.2.action_taken) =
        some "escalate_timeout") ∧
    (sample_low_assessment.overall_risk_score < 0.6 ∧
      (fraud_detection_orchestration 0 sample_payload sample_low_assessment
        RaceOutcome.timerFired).toOption.map (fun r => r.2.action_taken) =
        some "auto_clear") := by
  have hhi : (0.6:ℚ) ≤ sample_high_assessment.overall_risk_score := by
    show (0.6:ℚ) ≤ 0.9
    norm_num
  have hlo : sample_low_assessment.overall_risk_score < (0.6:ℚ) := by
    show (0.2:ℚ) < 0.6
    norm_num
  have h1 := (claim_C1_risk_branching 0 sample_payload sample_high_assessment).1 hhi
  have h2 := ((claim_C1_risk_branching 0 sample_payload sample_low_assessment).2 hlo
    RaceOutcome.timerFired).1
  exact ⟨⟨hhi, by rw [h1]; rfl⟩, ⟨hlo, by rw [h2]; rfl⟩⟩

/-- Claim C7: when the analyst event wins the race, a dict payload is parsed
into an AnalystDecision from its own fields, while a bare string payload
becomes the approved_action with analyst_id "unknown" and the alert_id of the
orchestration; either way the resulting decision is passed to the
execute_fraud_action activity and its action becomes the final
action_taken. -/
theorem claim_C7_lenient_decision_parsing (now : ℚ) (payload : FraudDetectionInput)
    (assessment : FraudRiskAssessment) (h : 0.6 ≤ assessment.overall_risk_score) :
    (∀ aid act notes anid,
      fraud_detection_orchestration now payload assessment
          (RaceOutcome.analystEvent
            (DecisionEventPayload.dict (some aid) (some act) notes anid)) =
        Except.ok
          ([OrchStep.callActivity "run_fraud_analysis"
              (.alertInput (alert_dict_of payload)),
            OrchStep.callActivity "notify_analyst" (.assessmentInput assessment),
            OrchStep.waitForExternalEvent "AnalystDecision",
            OrchStep.createTimer (now + payload.approval_timeout_hours),
            OrchStep.callActivity "execute_fraud_action"
              (.decisionInput ⟨aid, act, notes.getD "", anid.getD "analyst"⟩),
            OrchStep.callActivity "send_notification"
              (.actionInput (execute_fraud_action
                ⟨aid, act, notes.getD "", anid.getD "analyst"⟩))],
           { alert_id := payload.alert_id
             status := "completed"
             risk_score := assessment.overall_risk_score
             action_taken := act
             success := true })) ∧
    (∀ s,
      fraud_detection_orchestration now payload assessment
          (RaceOutcome.analystEvent (DecisionEventPayload.str s)) =
        Except.ok
          ([OrchStep.callActivity "run_fraud_analysis"
              (.alertInput (alert_dict_of payload)),
            OrchStep.callActivity "notify_analyst" (.assessmentInput assessment),
            OrchStep.waitForExternalEvent "AnalystDecision",
            OrchStep.createTimer (now + payload.approval_timeout_hours),
            OrchStep.callActivity "execute_fraud_action"
              (.decisionInput ⟨payload.alert_id, s, "", "unknown"⟩),
            OrchStep.callActivity "send_notification"
              (.actionInput (execute_fraud_action ⟨payload.alert_id, s, "", "unknown"⟩))],
           { alert_id := payload.alert_id
             status := "completed"
             risk_score := assessment.overall_risk_score
             action_taken := s
             success := true })) := by
  constructor
  · intro aid act notes anid
    simp only [fraud_detection_orchestration]
    rw [if_pos h]
    rfl
  · intro s
    simp only [fraud_detection_orchestration]
    rw [if_pos h]
    rfl

/-- Witness for C7: a structured decision and a bare-string decision each
drive the final action at a concrete high-risk run. -/
theorem claim_C7_witness :
    (0.6 ≤ sample_high_assessment.overall_risk_score ∧
      (fraud_detection_orchestration 0 sample_payload sample_high_assessment
        (RaceOutcome.analystEvent (DecisionEventPayload.dict (some "FD-2025-001")
          (some "refund_charges") (some "checked") (some "analyst-7")))).toOption.map
        (fun r => r.2.action_taken) = some "refund_charges") ∧
    (fraud_detection_orchestration 0 sample_payload sample_high_assessment
        (RaceOutcome.analystEvent (DecisionEventPayload.str "both"))).toOption.map
      (fun r => r.2.action_taken) = some "both" := by
  have hhi : (0.6:ℚ) ≤ sample_high_assessment.overall_risk_score := by
    show (0.6:ℚ) ≤ 0.9
    norm_num
  have h1 := (claim_C7_lenient_decision_parsing 0 sample_payload
    sample_high_assessment hhi).1 "FD-2025-001" "refund_charges" (some "checked")
    (some "analyst-7")
  have h2 := (claim_C7_lenient_decision_parsing 0 sample_payload
    sample_high_assessment hhi).2 "both"
  exact ⟨⟨hhi, by rw [h1]; rfl⟩, by rw [h2]; rfl⟩

end FraudDetection
